import Mathlib

/-!
Verification of the CSD efficacy-prediction dashboard (`src/app.py`).

The app is a thin presentation layer around an opaque binary classifier:
it loads a model artifact (falling back to a fixed-output `DummyModel`),
maps probabilities to risk tiers and gauge colors at cutoffs 0.30 / 0.70,
and runs batch CSV prediction with column validation and a UTF-8-with-BOM
export.  We shallowly embed that logic here: probabilities are rationals,
a classifier is its `predict_proba` function from a row-major matrix to a
list of (class-0, class-1) probability pairs, and the Streamlit control
flow becomes explicit functions on explicit data.
-/

namespace CSDApp

/-- A probability value.  The Python code works with floats; the logic we
verify (threshold comparisons, column bookkeeping) is exact arithmetic, so
we embed probabilities as rationals. -/
abbrev Prob := ℚ

/-- A classifier is anything exposing a `predict_proba`-shaped call, as in
spec section 6: given a row-major matrix of feature values it returns one
(P(class=0), P(class=1)) pair per row.  `joblib.load` produces such an
object; so does the `DummyModel` fallback. -/
structure Classifier where
  predict_proba : List (List ℚ) → List (ℚ × ℚ)

/-- The fallback stand-in classifier defined inside `load_model`
(src/app.py lines 34-36): `predict_proba` ignores its input and returns
the fixed single-row matrix `[[0.2, 0.45]]`. -/
def DummyModel : Classifier :=
  ⟨fun _X => [(2/10, 45/100)]⟩

/-- Result of `load_model`: the classifier obtained, plus whether a
visible error banner (`st.error`) was shown to the operator. -/
structure LoadResult where
  model : Classifier
  errorReported : Bool

/-- Embeds `load_model` (src/app.py lines 27-36).  The filesystem is
abstracted as an `Option Classifier`: `some m` means `joblib.load`
succeeds with model `m`; `none` means the artifact file is absent and
`joblib.load` raises `FileNotFoundError`.  In the latter case the code
shows `st.error` and returns `DummyModel` instead of crashing. -/
def load_model (artifact : Option Classifier) : LoadResult :=
  match artifact with
  | some m => ⟨m, false⟩
  | none => ⟨DummyModel, true⟩

/-- The six-field numeric input vector of one clinical case, built from
the sidebar inputs into `input_df` (src/app.py lines 109-111). -/
structure FeatureRecord where
  Length : ℚ
  RMT : ℚ
  Pre_Hb : ℚ
  Pre_Alb : ℚ
  Post_WBC : ℚ
  BMI : ℚ

/-- The single row of `input_df`: the six features in the canonical
column order `Length, RMT, Pre_Hb, Pre_Alb, Post_WBC, BMI`. -/
def FeatureRecord.toList (r : FeatureRecord) : List ℚ :=
  [r.Length, r.RMT, r.Pre_Hb, r.Pre_Alb, r.Post_WBC, r.BMI]

/-- Embeds the single-case prediction `float(model.predict_proba(input_df)[0, 1])`
(src/app.py line 132): entry (row 0, column 1) of the returned matrix.
`none` models the `IndexError` Python would raise on an empty matrix. -/
def predict_single (m : Classifier) (r : FeatureRecord) : Option ℚ :=
  ((m.predict_proba [r.toList]).get? 0).map Prod.snd

/-- The three risk tiers of the banner logic. -/
inductive RiskTier where
  | low
  | medium
  | high
deriving DecidableEq, Repr

/-- Embeds the risk banner thresholding of tab 1 (src/app.py lines
140-145): `if prob < 0.3` low, `elif prob < 0.7` medium, else high. -/
def classify_risk (p : ℚ) : RiskTier :=
  if p < 3/10 then RiskTier.low
  else if p < 7/10 then RiskTier.medium
  else RiskTier.high

/-- The risk ordering low < medium < high, as an index. -/
def tierIdx : RiskTier → Nat
  | RiskTier.low => 0
  | RiskTier.medium => 1
  | RiskTier.high => 2

/-- Gauge bar colors used by `plot_gauge`. -/
inductive GaugeColor where
  | green
  | yellow
  | red
deriving DecidableEq, Repr

/-- Embeds the color selection of `plot_gauge` (src/app.py lines 43-45):
`if prob < 0.3` green `#28a745`, `elif prob < 0.7` yellow `#ffc107`,
else red `#dc3545`. -/
def plot_gauge_color (p : ℚ) : GaugeColor :=
  if p < 3/10 then GaugeColor.green
  else if p < 7/10 then GaugeColor.yellow
  else GaugeColor.red

/-- The color associated with each banner tier: `st.success` renders
green, `st.warning` yellow, `st.error` red (src/app.py lines 141-145). -/
def tierColor : RiskTier → GaugeColor
  | RiskTier.low => GaugeColor.green
  | RiskTier.medium => GaugeColor.yellow
  | RiskTier.high => GaugeColor.red

/-- An uploaded tabular file, as `pd.read_csv` produces it: a header of
column names and row-major numeric data, each row aligned with the
header. -/
structure Table where
  header : List String
  rows : List (List ℚ)
deriving DecidableEq

/-- The six required column names, in the canonical order of
`input_df.columns` (src/app.py line 111), used both for validation
(line 156) and for column selection (line 163). -/
def requiredCols : List String :=
  ["Length", "RMT", "Pre_Hb", "Pre_Alb", "Post_WBC", "BMI"]

/-- Embeds `miss = required_cols - set(batch.columns)` (src/app.py line
157): the required column names absent from the uploaded table.  The
Python value is an unordered set; we list its elements in required-column
order. -/
def missingCols (t : Table) : List String :=
  requiredCols.filter (fun c => !(t.header.contains c))

/-- Value of column `c` in a row, via the header: pandas label-based
indexing.  Only invoked after validation guarantees `c` is a header
column and rows are header-aligned; out-of-schema lookups default to 0
(pandas would raise `KeyError`, unreachable post-validation). -/
def cellVal (header : List String) (row : List ℚ) (c : String) : ℚ :=
  match header.indexOf? c with
  | some i => row.getD i 0
  | none => 0

/-- Embeds `batch[list(input_df.columns)]` (src/app.py line 163): the
matrix of exactly the six required columns selected by name, in the
canonical order, one output row per input row. -/
def selectRequired (t : Table) : List (List ℚ) :=
  t.rows.map (fun r => requiredCols.map (fun c => cellVal t.header r c))

/-- Embeds `model.predict_proba(batch[list(input_df.columns)])[:, 1]`
(src/app.py line 163): the positive-class probability column over the
selected matrix. -/
def batchProbs (m : Classifier) (t : Table) : List ℚ :=
  (m.predict_proba (selectRequired t)).map Prod.snd

/-- How a batch run fails: the `st.error` path for missing columns
(src/app.py line 160), or the `ValueError` pandas raises when the output
length of the classifier does not match the row count of the table in
the column assignment on line 163. -/
inductive BatchError where
  | missingColumns (cols : List String)
  | lengthMismatch (got expected : Nat)
deriving DecidableEq, Repr

/-- The user-facing message of the missing-columns error
(src/app.py line 160): the absent names joined with a comma. -/
def missingColsMessage (cols : List String) : String :=
  "missing columns: " ++ String.intercalate ", " cols

/-- Embeds pandas column assignment `df[c] = vals` with one value per
row: when `c` is already a column of the frame, its cells are
overwritten in place and the schema is unchanged; only when `c` is a
new label is the column appended on the right. -/
def setCol (t : Table) (c : String) (vals : List ℚ) : Table :=
  match t.header.indexOf? c with
  | some i =>
      { header := t.header,
        rows := (t.rows.zip vals).map (fun rp => rp.1.set i rp.2) }
  | none =>
      { header := t.header ++ [c],
        rows := (t.rows.zip vals).map (fun rp => rp.1 ++ [rp.2]) }

/-- Embeds the batch pipeline of tab 2 (src/app.py lines 155-163):
validate that no required column is missing (erroring with the exact
missing names), otherwise select the six required columns by name,
invoke `predict_proba`, and assign the positive-class probabilities to
the `Pred_Prob` column via `batch["Pred_Prob"] = ...`, which appends a
new column when the upload had none and overwrites in place when a
`Pred_Prob` column was already present. -/
def run_batch (m : Classifier) (t : Table) : Except BatchError Table :=
  if missingCols t = [] then
    if (batchProbs m t).length = t.rows.length then
      Except.ok (setCol t "Pred_Prob" (batchProbs m t))
    else
      Except.error (BatchError.lengthMismatch (batchProbs m t).length t.rows.length)
  else
    Except.error (BatchError.missingColumns (missingCols t))

/-- One line of CSV output: cells joined with commas. -/
def csvLine (cells : List String) : String :=
  String.intercalate "," cells

/-- Embeds `batch.to_csv(index=False)` (src/app.py line 182): the header
line holding exactly the column names of the table (no index column,
because `index=False`), then one line per row.  Numeric rendering of
cells is abstracted by `toString`. -/
def to_csv (t : Table) : String :=
  csvLine t.header ++ "\n"
    ++ String.join (t.rows.map (fun r => csvLine (r.map toString) ++ "\n"))

/-- The UTF-8 byte-order marker, the three bytes the `utf-8-sig`
encoding prepends. -/
def bomBytes : List UInt8 := [0xEF, 0xBB, 0xBF]

/-- Embeds `.encode(utf-8-sig)`: the BOM followed by the UTF-8 encoding
of the string. -/
def encode_utf8_sig (s : String) : List UInt8 :=
  bomBytes ++ s.toUTF8.toList

/-- Embeds the bytes handed to `st.download_button` (src/app.py lines
182-189): `batch.to_csv(index=False)` encoded as `utf-8-sig`. -/
def downloadBytes (t : Table) : List UInt8 :=
  encode_utf8_sig (to_csv t)

/-! Concrete classifiers and tables used to instantiate the theorems
below on closed inputs. -/

/-- A well-behaved concrete classifier: probability 1/2 for every row. -/
def halfModel : Classifier :=
  ⟨fun X => X.map (fun _r => (1/2, 1/2))⟩

/-- A well-behaved concrete classifier with integer-valued output:
probability 1 for every row. -/
def oneModel : Classifier :=
  ⟨fun X => X.map (fun _r => (0, 1))⟩

/-- An upload whose columns are the six required ones in canonical
order, with two data rows. -/
def tableCanonical : Table :=
  ⟨["Length", "RMT", "Pre_Hb", "Pre_Alb", "Post_WBC", "BMI"],
   [[1, 2, 115, 40, 5, 23], [2, 1, 120, 41, 6, 25]]⟩

/-- A one-row upload with the six required columns in canonical order. -/
def tableCanonical1 : Table :=
  ⟨["Length", "RMT", "Pre_Hb", "Pre_Alb", "Post_WBC", "BMI"],
   [[1, 2, 115, 40, 5, 23]]⟩

/-- The same case as `tableCanonical1`, but with the columns presented
in a different order and an extra `Extra` column inserted. -/
def tableReordered : Table :=
  ⟨["BMI", "Extra", "Length", "RMT", "Pre_Hb", "Pre_Alb", "Post_WBC"],
   [[23, 99, 1, 2, 115, 40, 5]]⟩

/-- An upload that lacks exactly the required column `BMI`. -/
def tableMissingBMI : Table :=
  ⟨["Length", "RMT", "Pre_Hb", "Pre_Alb", "Post_WBC"], [[1, 2, 115, 40, 5]]⟩

/-- A one-row upload that already contains a `Pred_Prob` column (for
example a re-upload of a previously downloaded result file), with stale
probability 0 in that column. -/
def tableWithPredProb : Table :=
  ⟨["Length", "RMT", "Pre_Hb", "Pre_Alb", "Post_WBC", "BMI", "Pred_Prob"],
   [[1, 2, 115, 40, 5, 23, 0]]⟩

/-- A two-row upload that already contains a `Pred_Prob` column. -/
def tableWithPredProb2 : Table :=
  ⟨["Length", "RMT", "Pre_Hb", "Pre_Alb", "Post_WBC", "BMI", "Pred_Prob"],
   [[1, 2, 115, 40, 5, 23, 0], [2, 1, 120, 41, 6, 25, 0]]⟩

/-- When the assigned column is not already in the schema, pandas column
assignment appends it on the right, one appended cell per row. -/
theorem setCol_append (t : Table) (c : String) (vals : List ℚ)
    (h : c ∉ t.header) :
    setCol t c vals =
      ⟨t.header ++ [c], (t.rows.zip vals).map (fun rp => rp.1 ++ [rp.2])⟩ := by
  have hnone : t.header.indexOf? c = none :=
    List.indexOf?_eq_none_iff.mpr (fun x hx hbeq => h (eq_of_beq hbeq ▸ hx))
  unfold setCol
  rw [hnone]

/-- C1: `classify_risk` partitions [0,1] at the cutoffs 0.30 and 0.70
with lower-inclusive, upper-exclusive boundaries (the final tier
includes 1.0): the four boundary values map to low / medium / high /
high, every p in [0,0.30) is low, every p in [0.30,0.70) is medium, and
every p in [0.70,1] is high. -/
theorem classify_risk_partitions_range (p : ℚ) (h0 : 0 ≤ p) (h1 : p ≤ 1) :
    (classify_risk 0 = RiskTier.low ∧ classify_risk (30/100) = RiskTier.medium ∧
      classify_risk (70/100) = RiskTier.high ∧ classify_risk 1 = RiskTier.high) ∧
    (p < 30/100 → classify_risk p = RiskTier.low) ∧
    (30/100 ≤ p → p < 70/100 → classify_risk p = RiskTier.medium) ∧
    (70/100 ≤ p → classify_risk p = RiskTier.high) := by
  refine ⟨by norm_num [classify_risk], ?_, ?_, ?_⟩ <;>
    (intros; unfold classify_risk; split_ifs <;> first | rfl | linarith)

/-- Witness for C1 at the concrete probability 0.45. -/
theorem classify_risk_partitions_range_witness :
    classify_risk (45/100) = RiskTier.medium :=
  (classify_risk_partitions_range (45/100) (by norm_num) (by norm_num)).2.2.1
    (by norm_num) (by norm_num)

/-- C2: for every uploaded table lacking at least one required column,
batch processing fails with an error listing exactly the absent column
names, and no augmented table is produced. -/
theorem run_batch_missing_columns (m : Classifier) (t : Table)
    (h : missingCols t ≠ []) :
    run_batch m t = Except.error (BatchError.missingColumns (missingCols t)) ∧
    (∀ c, c ∈ missingCols t ↔ c ∈ requiredCols ∧ c ∉ t.header) ∧
    ∀ aug, run_batch m t ≠ Except.ok aug := by
  refine ⟨by simp [run_batch, h], ?_, ?_⟩
  · intro c
    simp [missingCols, List.mem_filter]
  · intro aug
    simp [run_batch, h]

/-- Witness for C2: a table missing only `BMI` fails with an error
naming exactly `BMI`. -/
theorem run_batch_missing_columns_witness :
    run_batch DummyModel tableMissingBMI =
      Except.error (BatchError.missingColumns ["BMI"]) ∧
    ("BMI" ∈ requiredCols ∧ "BMI" ∉ tableMissingBMI.header) := by
  have h := run_batch_missing_columns DummyModel tableMissingBMI (by decide)
  have hm : missingCols tableMissingBMI = ["BMI"] := by decide
  exact ⟨by rw [h.1, hm],
    (h.2.1 "BMI").mp (by rw [hm]; exact List.mem_singleton_self _)⟩

/-- Counterexample to C3 as frozen: on an upload that already contains
a `Pred_Prob` column, the assignment at src/app.py line 163 overwrites
that column in place, so the successful batch result has the original
schema unchanged and no new column is appended — the claimed shape
`original columns plus one appended Pred_Prob column` is false at this
input. -/
theorem run_batch_overwrites_existing_pred_prob :
    run_batch oneModel tableWithPredProb =
      Except.ok ⟨tableWithPredProb.header, [[1, 2, 115, 40, 5, 23, 1]]⟩ ∧
    tableWithPredProb.header ≠ tableWithPredProb.header ++ ["Pred_Prob"] ∧
    ¬ ∃ aug : Table, run_batch oneModel tableWithPredProb = Except.ok aug ∧
        aug.header = tableWithPredProb.header ++ ["Pred_Prob"] := by
  refine ⟨rfl, by decide, ?_⟩
  rintro ⟨aug, hok, hh⟩
  rw [show run_batch oneModel tableWithPredProb =
      Except.ok ⟨tableWithPredProb.header, [[1, 2, 115, 40, 5, 23, 1]]⟩ from rfl] at hok
  simp only [Except.ok.injEq] at hok
  subst hok
  exact absurd hh (by decide)

/-- C3 (amended): for a classifier meeting the `predict_proba` contract
(one probability pair per input row, probabilities in [0,1]) and an
uploaded table with all six required columns, no pre-existing
`Pred_Prob` column, and N rows, the augmented table has exactly N rows,
each original row preserved in order with exactly one probability in
[0,1] appended, and the header is the original columns followed by
`Pred_Prob`. -/
theorem run_batch_round_trip (m : Classifier) (t : Table)
    (hlen : ∀ X, (m.predict_proba X).length = X.length)
    (hrange : ∀ X pr, pr ∈ m.predict_proba X → 0 ≤ pr.2 ∧ pr.2 ≤ 1)
    (hmiss : missingCols t = [])
    (hnew : "Pred_Prob" ∉ t.header) :
    ∃ probs : List ℚ, probs.length = t.rows.length ∧
      (∀ p ∈ probs, 0 ≤ p ∧ p ≤ 1) ∧
      run_batch m t = Except.ok
        { header := t.header ++ ["Pred_Prob"],
          rows := (t.rows.zip probs).map (fun rp => rp.1 ++ [rp.2]) } ∧
      ((t.rows.zip probs).map (fun rp => rp.1 ++ [rp.2])).length = t.rows.length ∧
      ∀ i r, t.rows.get? i = some r →
        ∃ p, 0 ≤ p ∧ p ≤ 1 ∧
          ((t.rows.zip probs).map (fun rp => rp.1 ++ [rp.2])).get? i = some (r ++ [p]) := by
  have hp : (batchProbs m t).length = t.rows.length := by
    simp [batchProbs, selectRequired, hlen]
  have hbounds : ∀ p ∈ batchProbs m t, 0 ≤ p ∧ p ≤ 1 := by
    intro p hmem
    simp only [batchProbs, List.mem_map] at hmem
    obtain ⟨pr, hpr, rfl⟩ := hmem
    exact hrange _ _ hpr
  refine ⟨batchProbs m t, hp, hbounds,
    by simp [run_batch, hmiss, hp, setCol_append t "Pred_Prob" (batchProbs m t) hnew],
    ?_, ?_⟩
  · rw [List.length_map, List.length_zip _ _, hp, Nat.min_self]
  · intro i r hi
    have hlt : i < t.rows.length := (List.get?_eq_some.mp hi).1
    have hip : i < (batchProbs m t).length := by rw [hp]; exact hlt
    refine ⟨(batchProbs m t).get ⟨i, hip⟩,
      (hbounds _ (List.get_mem _ _ _)).1, (hbounds _ (List.get_mem _ _ _)).2, ?_⟩
    rw [List.get?_map]
    have hz : (t.rows.zip (batchProbs m t)).get? i =
        some (r, (batchProbs m t).get ⟨i, hip⟩) :=
      (List.get?_zip_eq_some _ _ _ _).mpr ⟨hi, List.get?_eq_get hip⟩
    rw [hz]
    rfl

/-- Witness for C3: a concrete two-row canonical table processed with a
contract-satisfying classifier yields an augmented table. -/
theorem run_batch_round_trip_witness :
    ∃ aug : Table, run_batch halfModel tableCanonical = Except.ok aug := by
  obtain ⟨probs, _, _, hok, _, _⟩ := run_batch_round_trip halfModel tableCanonical
    (by intro X; simp [halfModel])
    (by intro X pr hpr
        simp only [halfModel, List.mem_map] at hpr
        obtain ⟨a, _, rfl⟩ := hpr
        norm_num)
    (by decide) (by decide)
  exact ⟨_, hok⟩

/-- C4: with the model artifact absent, `load_model` reports a visible
error and returns the stand-in `DummyModel`; the single-case prediction
for Length=0.8, RMT=0.3, Pre_Hb=115, Pre_Alb=40, Post_WBC=5.5, BMI=23.0
against it is exactly 0.45, which classifies as medium with a yellow
color in both the banner and the gauge. -/
theorem load_model_fallback_concrete_case :
    (load_model none).errorReported = true ∧
    (load_model none).model = DummyModel ∧
    predict_single (load_model none).model
      ⟨8/10, 3/10, 115, 40, 55/10, 230/10⟩ = some (45/100) ∧
    classify_risk (45/100) = RiskTier.medium ∧
    tierColor (classify_risk (45/100)) = GaugeColor.yellow ∧
    plot_gauge_color (45/100) = GaugeColor.yellow := by
  refine ⟨rfl, rfl, ?_, ?_, ?_, ?_⟩
  · norm_num [predict_single, load_model, DummyModel]
  · norm_num [classify_risk]
  · norm_num [classify_risk, tierColor]
  · norm_num [plot_gauge_color]

/-- C5: `classify_risk` is monotone in the risk ordering
low < medium < high on [0,1], and returns exactly one of the three
tiers for every probability. -/
theorem classify_risk_monotone_total (p1 p2 : ℚ)
    (h0 : 0 ≤ p1) (h12 : p1 < p2) (h1 : p2 ≤ 1) :
    tierIdx (classify_risk p1) ≤ tierIdx (classify_risk p2) ∧
    ∀ p : ℚ, classify_risk p = RiskTier.low ∨ classify_risk p = RiskTier.medium ∨
      classify_risk p = RiskTier.high := by
  constructor
  · unfold classify_risk
    split_ifs <;> simp [tierIdx] <;> linarith
  · intro p; unfold classify_risk; split_ifs <;> simp

/-- Witness for C5 at the concrete pair 0 < 1. -/
theorem classify_risk_monotone_total_witness :
    tierIdx (classify_risk 0) ≤ tierIdx (classify_risk 1) :=
  (classify_risk_monotone_total 0 1 (by norm_num) (by norm_num) (by norm_num)).1

/-- C6: for every probability, the gauge bar color chosen by
`plot_gauge` agrees with the color of the tier chosen by the banner:
the two threshold decisions use the same cutoffs 0.30 and 0.70 and
never disagree. -/
theorem gauge_color_matches_banner_tier (p : ℚ) :
    plot_gauge_color p = tierColor (classify_risk p) := by
  simp only [plot_gauge_color, classify_risk]
  split_ifs <;> rfl

/-- C7: batch predictions depend only on the values of the six required
columns: two uploads with all required columns present, the same number
of rows, and row-wise equal values in the required columns produce the
same selected matrix and the same per-row probabilities, because the
adapter selects exactly the required columns by name in canonical
order. -/
theorem batch_depends_only_on_required (m : Classifier) (t1 t2 : Table)
    (hm1 : missingCols t1 = []) (hm2 : missingCols t2 = [])
    (hrows : t1.rows.length = t2.rows.length)
    (hagree : ∀ i r1 r2, t1.rows.get? i = some r1 → t2.rows.get? i = some r2 →
      ∀ c ∈ requiredCols, cellVal t1.header r1 c = cellVal t2.header r2 c) :
    selectRequired t1 = selectRequired t2 ∧ batchProbs m t1 = batchProbs m t2 := by
  have key : selectRequired t1 = selectRequired t2 := by
    apply List.ext_get?
    intro i
    simp only [selectRequired, List.get?_map]
    cases h1 : t1.rows.get? i with
    | none =>
      have h2 : t2.rows.get? i = none := by
        rw [List.get?_eq_none] at h1 ⊢
        omega
      rw [h2]
      rfl
    | some r1 =>
      have hlt : i < t1.rows.length := (List.get?_eq_some.mp h1).1
      have hlt2 : i < t2.rows.length := hrows ▸ hlt
      obtain ⟨r2, h2⟩ : ∃ r2, t2.rows.get? i = some r2 := ⟨_, List.get?_eq_get hlt2⟩
      rw [h2]
      simp only [Option.map_some']
      congr 1
      exact List.map_congr_left (fun c hc => hagree i r1 r2 h1 h2 c hc)
  exact ⟨key, by simp [batchProbs, key]⟩

/-- Witness for C7: reordering the columns and inserting an extra
column leaves the probabilities unchanged on a concrete one-row
upload. -/
theorem batch_depends_only_on_required_witness :
    batchProbs DummyModel tableCanonical1 = batchProbs DummyModel tableReordered := by
  have h := batch_depends_only_on_required DummyModel tableCanonical1 tableReordered
    (by decide) (by decide) (by decide) ?_
  · exact h.2
  · intro i r1 r2 h1 h2 c hc
    cases i with
    | zero =>
      simp only [tableCanonical1, tableReordered, List.get?] at h1 h2
      cases h1
      cases h2
      fin_cases hc <;> decide
    | succ n =>
      simp only [tableCanonical1, List.get?] at h1
      cases n <;> simp_all [List.get?]

/-- C8: the single-case Prediction Adapter is deterministic: invoked
twice with an identical Feature Record against an unchanged classifier
it yields the same probability both times. -/
theorem predict_single_deterministic (m : Classifier) (r1 r2 : FeatureRecord)
    (h : r1 = r2) : predict_single m r1 = predict_single m r2 := by
  rw [h]

/-- Witness for C8 at the concrete default Feature Record. -/
theorem predict_single_deterministic_witness :
    predict_single DummyModel ⟨8/10, 3/10, 115, 40, 55/10, 230/10⟩ =
      predict_single DummyModel ⟨8/10, 3/10, 115, 40, 55/10, 230/10⟩ :=
  predict_single_deterministic DummyModel _ _ rfl

/-- Counterexample to C9 as frozen: on a successfully processed upload
that already contained a `Pred_Prob` column, the downloaded table does
not consist of the original columns plus an appended probability
column — the schema is unchanged and the pre-existing `Pred_Prob`
values are overwritten. -/
theorem download_not_augmented_on_pred_prob_upload :
    run_batch oneModel tableWithPredProb2 =
      Except.ok ⟨tableWithPredProb2.header,
        [[1, 2, 115, 40, 5, 23, 1], [2, 1, 120, 41, 6, 25, 1]]⟩ ∧
    ¬ ∃ aug : Table, run_batch oneModel tableWithPredProb2 = Except.ok aug ∧
        aug.header = tableWithPredProb2.header ++ ["Pred_Prob"] := by
  refine ⟨rfl, ?_⟩
  rintro ⟨aug, hok, hh⟩
  rw [show run_batch oneModel tableWithPredProb2 =
      Except.ok ⟨tableWithPredProb2.header,
        [[1, 2, 115, 40, 5, 23, 1], [2, 1, 120, 41, 6, 25, 1]]⟩ from rfl] at hok
  simp only [Except.ok.injEq] at hok
  subst hok
  exact absurd hh (by decide)

/-- C9 (amended): for every successfully processed batch whose upload
did not already contain a `Pred_Prob` column, the download is the
augmented table serialized as CSV, UTF-8 encoded with a byte-order
marker prefix, whose header holds exactly the original columns plus the
appended `Pred_Prob` column and no extra index column. -/
theorem download_is_bom_utf8_augmented (m : Classifier) (t : Table) (aug : Table)
    (hnew : "Pred_Prob" ∉ t.header)
    (h : run_batch m t = Except.ok aug) :
    downloadBytes aug = bomBytes ++ (to_csv aug).toUTF8.toList ∧
    (downloadBytes aug).take 3 = bomBytes ∧
    aug.header = t.header ++ ["Pred_Prob"] ∧
    to_csv aug = csvLine (t.header ++ ["Pred_Prob"]) ++ "\n"
      ++ String.join (aug.rows.map (fun r => csvLine (r.map toString) ++ "\n")) := by
  have hh : aug.header = t.header ++ ["Pred_Prob"] := by
    simp only [run_batch] at h
    split_ifs at h with h1 h2
    simp only [Except.ok.injEq] at h
    subst h
    rw [setCol_append t _ _ hnew]
  refine ⟨rfl, ?_, hh, ?_⟩
  · simp [downloadBytes, encode_utf8_sig, bomBytes]
  · rw [to_csv, hh]

/-- Witness for C9 on a concrete successful batch run. -/
theorem download_is_bom_utf8_augmented_witness :
    (downloadBytes ⟨["Length", "RMT", "Pre_Hb", "Pre_Alb", "Post_WBC", "BMI", "Pred_Prob"],
        [[1, 2, 115, 40, 5, 23, 1], [2, 1, 120, 41, 6, 25, 1]]⟩).take 3 = bomBytes ∧
    (⟨["Length", "RMT", "Pre_Hb", "Pre_Alb", "Post_WBC", "BMI", "Pred_Prob"],
        [[1, 2, 115, 40, 5, 23, 1], [2, 1, 120, 41, 6, 25, 1]]⟩ : Table).header =
      tableCanonical.header ++ ["Pred_Prob"] := by
  have h := download_is_bom_utf8_augmented oneModel tableCanonical
    ⟨["Length", "RMT", "Pre_Hb", "Pre_Alb", "Post_WBC", "BMI", "Pred_Prob"],
        [[1, 2, 115, 40, 5, 23, 1], [2, 1, 120, 41, 6, 25, 1]]⟩ (by decide) rfl
  exact ⟨h.2.1, h.2.2.1⟩

/-- C10: the stand-in `DummyModel` ignores its input entirely: for every
input matrix its `predict_proba` returns the fixed single-row matrix
[[0.2, 0.45]], so the output always has exactly one row regardless of
how many input rows were supplied. -/
theorem dummy_model_ignores_input (X : List (List ℚ)) :
    DummyModel.predict_proba X = [(20/100, 45/100)] ∧
    (DummyModel.predict_proba X).length = 1 :=
  ⟨by norm_num [DummyModel], rfl⟩

end CSDApp
